import Mathlib

/-!
# Verification of the reaper-rs high-level session core

A shallow embedding of `src/main/high/src/reaper_session.rs`: the bounded
task channels, the command registry with its borrow discipline, the
lifecycle state machine (`activate` / `deactivate`), the audio-hook
callback, and the deadline-respecting main-thread drain cycle.

Conventions:
* Rust closures are represented by opaque numeric tags (`id` fields); a
  trace field records which tags have been executed.
* `std::time::SystemTime` / `Duration` are modelled as `Nat` instants.
* `crossbeam_channel` bounded channels are modelled with their documented
  semantics: `send` enqueues when there is spare capacity, returns
  `SendError` only when the channel is disconnected, and otherwise
  (queue at capacity, channel connected) blocks the calling thread.
-/

set_option autoImplicit false
set_option maxRecDepth 10000

namespace ReaperRs

/-- `MAX_MAIN_THREAD_TASKS` from `reaper_session.rs`: capacity of the
main-thread task channel. -/
def MAX_MAIN_THREAD_TASKS : Nat := 1000

/-- `MAX_AUDIO_THREAD_TASKS` from `reaper_session.rs`: capacity of the
audio-thread task channel. -/
def MAX_AUDIO_THREAD_TASKS : Nat := 500

/-- `MainThreadTask`: a one-shot operation (represented by its tag `id`)
plus an optional earliest execution time (`desired_execution_time`,
an `Option SystemTime` in the source, here `Option Nat`). -/
structure MainThreadTask where
  id : Nat
  desired_execution_time : Option Nat
  deriving DecidableEq

/-- `AudioThreadTaskOp`: a boxed one-shot operation executed in the
real-time audio thread, represented by its tag. -/
structure AudioThreadTaskOp where
  id : Nat
  deriving DecidableEq

/-- A `crossbeam_channel::bounded` channel: fixed capacity, FIFO queue
(front of the list = oldest message), and a disconnection flag.  In
`ReaperSession` both the sender and the receiver are stored in the
session struct for the whole program run, so the channel never becomes
disconnected; the flag is kept so that `send`'s error case is faithful. -/
structure BoundedChannel (α : Type) where
  capacity : Nat
  queue : List α
  disconnected : Bool

instance {α : Type} [DecidableEq α] : DecidableEq (BoundedChannel α) :=
  fun a b =>
    decidable_of_iff
      (a.capacity = b.capacity ∧ a.queue = b.queue ∧ a.disconnected = b.disconnected)
      (by cases a; cases b; simp)

/-- Outcome of a call to `crossbeam_channel::Sender::send`.  The call
either returns (with `Ok(())` or `Err(SendError)`, already mapped to
`Except Unit Unit` as the session code does with `map_err(|_| ())`), or
it blocks the calling thread because the bounded queue is at capacity
and the channel is still connected. -/
inductive SendOutcome (α : Type) where
  | returned (r : Except Unit Unit) (ch : BoundedChannel α)
  | blocked

instance : DecidableEq (Except Unit Unit) := fun a b =>
  match a, b with
  | .ok (), .ok () => .isTrue rfl
  | .ok (), .error () => .isFalse (by intro h; cases h)
  | .error (), .ok () => .isFalse (by intro h; cases h)
  | .error (), .error () => .isTrue rfl

instance {α : Type} [DecidableEq α] : DecidableEq (SendOutcome α) := fun a b =>
  match a, b with
  | .blocked, .blocked => .isTrue rfl
  | .blocked, .returned _ _ => .isFalse (by intro h; cases h)
  | .returned _ _, .blocked => .isFalse (by intro h; cases h)
  | .returned r ch, .returned r' ch' =>
      decidable_of_iff (r = r' ∧ ch = ch')
        (by constructor
            · rintro ⟨h1, h2⟩; rw [h1, h2]
            · intro h; cases h; exact ⟨rfl, rfl⟩)

/-- `crossbeam_channel::Sender::send` on a bounded channel: errors only
when disconnected, enqueues when below capacity, blocks otherwise. -/
def channelSend {α : Type} (ch : BoundedChannel α) (a : α) : SendOutcome α :=
  if ch.disconnected then .returned (.error ()) ch
  else if ch.queue.length < ch.capacity then
    .returned (.ok ()) { ch with queue := ch.queue ++ [a] }
  else .blocked

/-- `ReaperSession::execute_in_main_thread(waiting_time, op)`: sends a
`MainThreadTask` with `desired_execution_time = Some(SystemTime::now() +
waiting_time)` on the main-thread channel.  `now` is the current time
at submission, `op` the operation's tag. -/
def execute_in_main_thread (now waiting_time : Nat) (op : Nat)
    (ch : BoundedChannel MainThreadTask) : SendOutcome MainThreadTask :=
  channelSend ch ⟨op, some (now + waiting_time)⟩

/-- `ReaperSession::execute_asap_in_main_thread(op)`: sends a
`MainThreadTask` with no desired execution time. -/
def execute_asap_in_main_thread (op : Nat)
    (ch : BoundedChannel MainThreadTask) : SendOutcome MainThreadTask :=
  channelSend ch ⟨op, none⟩

/-- `ReaperSession::execute_asap_in_audio_thread(op)`: sends the boxed
operation on the audio-thread channel. -/
def execute_asap_in_audio_thread (op : Nat)
    (ch : BoundedChannel AudioThreadTaskOp) : SendOutcome AudioThreadTaskOp :=
  channelSend ch ⟨op⟩

/-- A main-thread channel at capacity: 1000 queued tasks, connected. -/
def fullMainChannel : BoundedChannel MainThreadTask :=
  { capacity := MAX_MAIN_THREAD_TASKS
    queue := List.replicate MAX_MAIN_THREAD_TASKS ⟨0, none⟩
    disconnected := false }

/-- An audio-thread channel at capacity: 500 queued tasks, connected. -/
def fullAudioChannel : BoundedChannel AudioThreadTaskOp :=
  { capacity := MAX_AUDIO_THREAD_TASKS
    queue := List.replicate MAX_AUDIO_THREAD_TASKS ⟨0⟩
    disconnected := false }

/-- C1: against the claim (and the source's own doc comments, which say
"Returns an error if task queue if full"), a scheduling call made while
the destination bounded queue is at capacity does NOT return a
submission failure: `crossbeam_channel::Sender::send` blocks while the
queue is full and only errors on disconnection, and the session holds
both channel ends forever, so the channel is never disconnected.  At a
full queue all three scheduling operations block. -/
theorem scheduling_on_full_queue_blocks :
    execute_in_main_thread 0 5 1 fullMainChannel = .blocked ∧
    execute_asap_in_main_thread 1 fullMainChannel = .blocked ∧
    execute_asap_in_audio_thread 1 fullAudioChannel = .blocked := by
  refine ⟨?_, ?_, ?_⟩ <;> decide

/-! ## Lifecycle state machine: `activate` / `deactivate` -/

/-- The five host registrations performed by `activate` (`plugin_register_add_*`
and `audio_reg_hardware_hook_add`). -/
inductive RegObject where
  | hook_command
  | toggle_action
  | hook_post_command
  | csurf_inst
  | audio_hook
  deriving DecidableEq

/-- A host registration call made by the session: adding or removing one
of the five registration objects. -/
inductive HostEvent where
  | add (o : RegObject)
  | remove (o : RegObject)
  deriving DecidableEq

/-- The observable state of a `ReaperSession` relevant to the lifecycle
and task-queue claims.  The channels' queues are listed directly (the
capacity bound is irrelevant to draining).  `executed_main` /
`executed_audio` record the tags of operations that have actually been
invoked; `activate`/`deactivate` never append to them.  `log` records
`slog::warn!` entries as (message, task_count) pairs.  `host_events`
records the `plugin_register`/audio-hook host calls in order.
`active_data` holds the control-surface and audio-hook registration
handles while active (`Option<ActiveData>` in the source). -/
structure SessionState where
  main_queue : List MainThreadTask
  audio_queue : List AudioThreadTaskOp
  active_data : Option (Nat × Nat)
  executed_main : List Nat
  executed_audio : List Nat
  log : List (String × Nat)
  host_events : List HostEvent
  deriving DecidableEq

/-- Result of a lifecycle call: either a Rust `panic!`/failed `assert!`
with its message and the state at the moment of panicking, or a normal
return with the updated state. -/
inductive LifecycleResult where
  | panicked (msg : String) (st : SessionState)
  | ok (st : SessionState)
  deriving DecidableEq

/-- Did the call return normally? -/
def LifecycleResult.isOk : LifecycleResult → Bool
  | .ok _ => true
  | .panicked _ _ => false

/-- The state after the call (state at panic time if it panicked). -/
def LifecycleResult.state : LifecycleResult → SessionState
  | .ok st => st
  | .panicked _ st => st

/-- `ReaperSession::discard_main_thread_tasks`: consumes every queued
main-thread task via `try_iter().count()` and, if the count is positive,
logs one warning carrying that count. -/
def discard_main_thread_tasks (st : SessionState) : SessionState :=
  let task_count := st.main_queue.length
  { st with
    main_queue := []
    log := if task_count > 0 then
        st.log ++ [("Discarded main thread tasks on reactivation", task_count)]
      else st.log }

/-- `ReaperSession::discard_audio_thread_tasks`: same for the
audio-thread queue. -/
def discard_audio_thread_tasks (st : SessionState) : SessionState :=
  let task_count := st.audio_queue.length
  { st with
    audio_queue := []
    log := if task_count > 0 then
        st.log ++ [("Discarded audio thread tasks on reactivation", task_count)]
      else st.log }

/-- `ReaperSession::discard_pending_tasks`: discard main-thread tasks,
then audio-thread tasks. -/
def discard_pending_tasks (st : SessionState) : SessionState :=
  discard_audio_thread_tasks (discard_main_thread_tasks st)

/-- `ReaperSession::activate`: asserts the session is not yet active
(panicking with "Reaper is already active" otherwise, before touching
anything), discards pending tasks, then registers — in source order —
the hook command, the toggle action, the hook post command, the control
surface and the audio hook, storing the two returned handles
(`csurf_h`, `audio_h`, supplied by the host) in `active_data`. -/
def activate (csurf_h audio_h : Nat) (st : SessionState) : LifecycleResult :=
  if st.active_data.isSome then .panicked "Reaper is already active" st
  else
    let st1 := discard_pending_tasks st
    .ok { st1 with
          host_events := st1.host_events ++
            [.add .hook_command, .add .toggle_action, .add .hook_post_command,
             .add .csurf_inst, .add .audio_hook]
          active_data := some (csurf_h, audio_h) }

/-- `ReaperSession::deactivate`: panics with "Reaper is not active" if
there is no active data; otherwise removes — in source order — the
audio hook, the control surface, the hook post command, the toggle
action and the hook command, then clears the stored handles.  The task
queues are not touched. -/
def deactivate (st : SessionState) : LifecycleResult :=
  if st.active_data.isNone then .panicked "Reaper is not active" st
  else
    .ok { st with
          host_events := st.host_events ++
            [.remove .audio_hook, .remove .csurf_inst, .remove .hook_post_command,
             .remove .toggle_action, .remove .hook_command]
          active_data := none }

/-- The registration order of `activate`, as a list of objects. -/
def activation_order : List RegObject :=
  [.hook_command, .toggle_action, .hook_post_command, .csurf_inst, .audio_hook]

/-- C3: a successful `activate` (in particular one following a
`deactivate` and further enqueues — the state is arbitrary) leaves both
task queues empty, executes none of the queued tasks (the executed-task
traces are unchanged), and reports, for each non-empty queue, exactly
one log entry whose count is the number of tasks discarded — so each
discarded task is counted exactly once and can never run afterwards. -/
theorem activate_discards_stale_tasks_without_executing (ch ah : Nat)
    (st : SessionState) (h : st.active_data = none) :
    (activate ch ah st).isOk = true ∧
    (activate ch ah st).state.main_queue = [] ∧
    (activate ch ah st).state.audio_queue = [] ∧
    (activate ch ah st).state.executed_main = st.executed_main ∧
    (activate ch ah st).state.executed_audio = st.executed_audio ∧
    (activate ch ah st).state.log = st.log
      ++ (if st.main_queue.length > 0 then
            [("Discarded main thread tasks on reactivation", st.main_queue.length)]
          else [])
      ++ (if st.audio_queue.length > 0 then
            [("Discarded audio thread tasks on reactivation", st.audio_queue.length)]
          else []) := by
  refine ⟨?_, ?_, ?_, ?_, ?_, ?_⟩ <;>
    simp [activate, h, discard_pending_tasks, discard_audio_thread_tasks,
      discard_main_thread_tasks, LifecycleResult.isOk, LifecycleResult.state]
  split_ifs <;> simp

/-- A session state with one pending main-thread task and two pending
audio-thread tasks, not yet active. -/
def stInactiveW : SessionState :=
  { main_queue := [⟨7, none⟩], audio_queue := [⟨8⟩, ⟨9⟩], active_data := none,
    executed_main := [], executed_audio := [], log := [], host_events := [] }

/-- Witness for C3 at a concrete state with non-empty queues. -/
theorem activate_discards_stale_tasks_without_executing_witness :
    (activate 3 4 stInactiveW).isOk = true ∧
    (activate 3 4 stInactiveW).state.main_queue = [] ∧
    (activate 3 4 stInactiveW).state.audio_queue = [] ∧
    (activate 3 4 stInactiveW).state.executed_main = stInactiveW.executed_main ∧
    (activate 3 4 stInactiveW).state.executed_audio = stInactiveW.executed_audio ∧
    (activate 3 4 stInactiveW).state.log = stInactiveW.log
      ++ (if stInactiveW.main_queue.length > 0 then
            [("Discarded main thread tasks on reactivation", stInactiveW.main_queue.length)]
          else [])
      ++ (if stInactiveW.audio_queue.length > 0 then
            [("Discarded audio thread tasks on reactivation", stInactiveW.audio_queue.length)]
          else []) :=
  activate_discards_stale_tasks_without_executing 3 4 stInactiveW rfl

/-- An active session state with one pending main-thread task. -/
def stActiveCex : SessionState :=
  { main_queue := [⟨0, none⟩], audio_queue := [], active_data := some (1, 2),
    executed_main := [], executed_audio := [], log := [], host_events := [] }

/-- An active session state with a pending deadline task and non-empty
executed traces. -/
def stActiveW : SessionState :=
  { main_queue := [⟨1, some 10⟩], audio_queue := [], active_data := some (1, 2),
    executed_main := [3], executed_audio := [4], log := [], host_events := [] }

/-- An inactive session state used by the C8 witness. -/
def stInactiveC8 : SessionState :=
  { main_queue := [], audio_queue := [], active_data := none,
    executed_main := [], executed_audio := [], log := [], host_events := [] }

/-- C2 counterexample: `deactivate` succeeds on `stActiveCex` but the
main-thread queue is NOT empty afterwards (the queued task is still
there) and no discard count was logged — `deactivate` does not drain
the queues; per the source comment on `MAX_MAIN_THREAD_TASKS`, pending
tasks "will be discarded on the next activate". -/
theorem deactivate_does_not_drain_cex :
    (deactivate stActiveCex).isOk = true ∧
    (deactivate stActiveCex).state.main_queue ≠ [] ∧
    (deactivate stActiveCex).state.log = [] := by
  decide

/-- C2 (amended): a successful `deactivate` leaves both task queues,
the executed-task traces and the log untouched; the still-queued tasks
are drained, discarded unexecuted and count-reported only by the next
successful `activate`. -/
theorem deactivate_leaves_queues_for_next_activate (ch ah : Nat)
    (st : SessionState) (h : st.active_data.isSome = true) :
    (deactivate st).isOk = true ∧
    (deactivate st).state.main_queue = st.main_queue ∧
    (deactivate st).state.audio_queue = st.audio_queue ∧
    (deactivate st).state.executed_main = st.executed_main ∧
    (deactivate st).state.executed_audio = st.executed_audio ∧
    (deactivate st).state.log = st.log ∧
    (activate ch ah (deactivate st).state).isOk = true ∧
    (activate ch ah (deactivate st).state).state.main_queue = [] ∧
    (activate ch ah (deactivate st).state).state.audio_queue = [] ∧
    (activate ch ah (deactivate st).state).state.executed_main = st.executed_main ∧
    (activate ch ah (deactivate st).state).state.executed_audio = st.executed_audio ∧
    (activate ch ah (deactivate st).state).state.log = st.log
      ++ (if st.main_queue.length > 0 then
            [("Discarded main thread tasks on reactivation", st.main_queue.length)]
          else [])
      ++ (if st.audio_queue.length > 0 then
            [("Discarded audio thread tasks on reactivation", st.audio_queue.length)]
          else []) := by
  have hd : st.active_data.isNone = false := by
    cases hv : st.active_data <;> simp_all
  refine ⟨?_, ?_, ?_, ?_, ?_, ?_, ?_, ?_, ?_, ?_, ?_, ?_⟩ <;>
    simp [deactivate, hd, activate, discard_pending_tasks,
      discard_audio_thread_tasks, discard_main_thread_tasks,
      LifecycleResult.isOk, LifecycleResult.state]
  split_ifs <;> simp

/-- Witness for the amended C2 at a concrete active state. -/
theorem deactivate_leaves_queues_for_next_activate_witness :
    (deactivate stActiveW).isOk = true ∧
    (deactivate stActiveW).state.main_queue = stActiveW.main_queue ∧
    (deactivate stActiveW).state.audio_queue = stActiveW.audio_queue ∧
    (deactivate stActiveW).state.executed_main = stActiveW.executed_main ∧
    (deactivate stActiveW).state.executed_audio = stActiveW.executed_audio ∧
    (deactivate stActiveW).state.log = stActiveW.log ∧
    (activate 5 6 (deactivate stActiveW).state).isOk = true ∧
    (activate 5 6 (deactivate stActiveW).state).state.main_queue = [] ∧
    (activate 5 6 (deactivate stActiveW).state).state.audio_queue = [] ∧
    (activate 5 6 (deactivate stActiveW).state).state.executed_main
      = stActiveW.executed_main ∧
    (activate 5 6 (deactivate stActiveW).state).state.executed_audio
      = stActiveW.executed_audio ∧
    (activate 5 6 (deactivate stActiveW).state).state.log = stActiveW.log
      ++ (if stActiveW.main_queue.length > 0 then
            [("Discarded main thread tasks on reactivation", stActiveW.main_queue.length)]
          else [])
      ++ (if stActiveW.audio_queue.length > 0 then
            [("Discarded audio thread tasks on reactivation", stActiveW.audio_queue.length)]
          else []) :=
  deactivate_leaves_queues_for_next_activate 5 6 stActiveW rfl

/-- C8: `activate` on an already-active session panics with "Reaper is
already active" leaving the state exactly as it was (in particular no
host registration is made); `deactivate` on an inactive session panics
with "Reaper is not active" with the state unchanged (nothing
unregistered); a successful `activate` stores the handles (session
active), a successful `deactivate` clears them (session inactive). -/
theorem lifecycle_double_transition_panics (ch ah : Nat)
    (stA stI : SessionState) (hA : stA.active_data.isSome = true)
    (hI : stI.active_data = none) :
    activate ch ah stA = .panicked "Reaper is already active" stA ∧
    deactivate stI = .panicked "Reaper is not active" stI ∧
    (activate ch ah stI).isOk = true ∧
    (activate ch ah stI).state.active_data = some (ch, ah) ∧
    (deactivate stA).isOk = true ∧
    (deactivate stA).state.active_data = none := by
  have hd : stA.active_data.isNone = false := by
    cases hv : stA.active_data <;> simp_all
  refine ⟨?_, ?_, ?_, ?_, ?_, ?_⟩ <;>
    simp [activate, deactivate, hA, hI, hd,
      LifecycleResult.isOk, LifecycleResult.state]

/-- Witness for C8 at concrete active and inactive states. -/
theorem lifecycle_double_transition_panics_witness :
    activate 5 6 stActiveW = .panicked "Reaper is already active" stActiveW ∧
    deactivate stInactiveC8 = .panicked "Reaper is not active" stInactiveC8 ∧
    (activate 5 6 stInactiveC8).isOk = true ∧
    (activate 5 6 stInactiveC8).state.active_data = some (5, 6) ∧
    (deactivate stActiveW).isOk = true ∧
    (deactivate stActiveW).state.active_data = none :=
  lifecycle_double_transition_panics 5 6 stActiveW stInactiveC8 rfl rfl

/-- C9: a successful `activate` appends host registrations in exactly
`activation_order` (hook command, toggle action, hook post command,
control surface, audio hook); the following `deactivate` appends the
removals of exactly the reversed order and then clears the stored
handles. -/
theorem deactivate_unregisters_in_reverse_order (ch ah : Nat)
    (st : SessionState) (h : st.active_data = none) :
    (activate ch ah st).state.host_events =
      st.host_events ++ activation_order.map HostEvent.add ∧
    (deactivate (activate ch ah st).state).isOk = true ∧
    (deactivate (activate ch ah st).state).state.host_events =
      st.host_events ++ activation_order.map HostEvent.add
        ++ (activation_order.map HostEvent.remove).reverse ∧
    (deactivate (activate ch ah st).state).state.active_data = none := by
  refine ⟨?_, ?_, ?_, ?_⟩ <;>
    simp [activate, deactivate, h, discard_pending_tasks,
      discard_audio_thread_tasks, discard_main_thread_tasks,
      activation_order, LifecycleResult.isOk, LifecycleResult.state]

/-- Witness for C9 at a concrete inactive state. -/
theorem deactivate_unregisters_in_reverse_order_witness :
    (activate 3 4 stInactiveW).state.host_events =
      stInactiveW.host_events ++ activation_order.map HostEvent.add ∧
    (deactivate (activate 3 4 stInactiveW).state).isOk = true ∧
    (deactivate (activate 3 4 stInactiveW).state).state.host_events =
      stInactiveW.host_events ++ activation_order.map HostEvent.add
        ++ (activation_order.map HostEvent.remove).reverse ∧
    (deactivate (activate 3 4 stInactiveW).state).state.active_data = none :=
  deactivate_unregisters_in_reverse_order 3 4 stInactiveW rfl

/-! ## Command registry: `register_action`, `unregister_command`, dispatch -/

/-- `ActionKind` from the source: not toggleable, or toggleable with a
boxed `is_on` predicate. -/
inductive ActionKind where
  | NotToggleable
  | Toggleable (is_on : Unit → Bool)

/-- `Command`: the `Rc<RefCell<dyn FnMut()>>` operation is represented
by its tag `opId` (cloning the `Rc` shares the tag); `kind` as in the
source. -/
structure Command where
  opId : Nat
  kind : ActionKind

/-- The `HashMap<CommandId, Command>` behind `command_by_id`, as a
key-unique association list (`CommandId` is a `u32` newtype, here
`Nat`). -/
abbrev CommandRegistry := List (Nat × Command)

/-- `HashMap::get` on the command registry. -/
def lookupCommand (m : CommandRegistry) (command_id : Nat) : Option Command :=
  List.lookup command_id m

/-- `ToggleActionResult` from `reaper-medium`. -/
inductive ToggleActionResult where
  | On
  | Off
  | NotRelevant
  deriving DecidableEq

/-- `RegisteredAction`: pairs the command id with the host-side gaccel
registration handle. -/
structure RegisteredAction where
  command_id : Nat
  gaccel_handle : Nat
  deriving DecidableEq

/-- `ReaperSession::register_action`: the host assigns `command_id`
(via `plugin_register_add_command_id`) and the gaccel handle `gaccel`
(via `plugin_register_add_gaccel`); the `Command` is inserted only if
the `command_id` entry is vacant, and a `RegisteredAction` carrying the
id and the handle is returned. -/
def register_action (command_id : Nat) (cmd : Command) (gaccel : Nat)
    (m : CommandRegistry) : CommandRegistry × RegisteredAction :=
  ( if (lookupCommand m command_id).isSome then m else (command_id, cmd) :: m,
    ⟨command_id, gaccel⟩ )

/-- `ReaperSession::unregister_command`: if the id is present, the
host-side gaccel registration is removed and the entry is removed from
the map; otherwise nothing happens. -/
def unregister_command (command_id : Nat) (m : CommandRegistry) : CommandRegistry :=
  if (lookupCommand m command_id).isSome then
    m.filter (fun p => p.1 != command_id)
  else m

/-- `RegisteredAction::unregister`: delegates to `unregister_command`
with the stored command id (and gaccel handle). -/
def RegisteredAction.unregister (a : RegisteredAction) (m : CommandRegistry) :
    CommandRegistry :=
  unregister_command a.command_id m

/-- The `RefCell<HashMap<CommandId, Command>>` `command_by_id` together
with its runtime borrow state: the number of outstanding shared borrows
and whether a mutable borrow is outstanding. -/
structure CommandMapCell where
  map : CommandRegistry
  shared_borrows : Nat
  mut_borrowed : Bool

/-- `RefCell::borrow`: panics (`none`) if mutably borrowed. -/
def cell_borrow (c : CommandMapCell) : Option CommandMapCell :=
  if c.mut_borrowed then none
  else some { c with shared_borrows := c.shared_borrows + 1 }

/-- Dropping a `Ref` obtained from `RefCell::borrow`. -/
def cell_release (c : CommandMapCell) : CommandMapCell :=
  { c with shared_borrows := c.shared_borrows - 1 }

/-- `RefCell::borrow_mut`: panics (`none`) if any borrow is
outstanding. -/
def cell_borrow_mut (c : CommandMapCell) : Option CommandMapCell :=
  if c.mut_borrowed || decide (0 < c.shared_borrows) then none
  else some { c with mut_borrowed := true }

/-- Dropping a `RefMut` obtained from `RefCell::borrow_mut`. -/
def cell_release_mut (c : CommandMapCell) : CommandMapCell :=
  { c with mut_borrowed := false }

/-- The `command_by_id` access made by `register_action`: a
`borrow_mut` held only for the duration of the `entry`/insert
statement. -/
def register_action_via_cell (command_id : Nat) (cmd : Command) (gaccel : Nat)
    (c : CommandMapCell) : Option (CommandMapCell × RegisteredAction) := do
  let c1 ← cell_borrow_mut c
  let (m, act) := register_action command_id cmd gaccel c1.map
  some (cell_release_mut { c1 with map := m }, act)

/-- The `command_by_id` access made by `unregister_command`: a
`borrow_mut` held for the lookup and removal. -/
def unregister_command_via_cell (command_id : Nat) (c : CommandMapCell) :
    Option CommandMapCell := do
  let c1 ← cell_borrow_mut c
  some (cell_release_mut { c1 with map := unregister_command command_id c1.map })

/-- `HighLevelHookCommand::call`: borrows `command_by_id` shared, looks
up the id; if absent, returns `false` ("not handled"); if present,
clones the operation's `Rc` and releases the registry borrow at the end
of the `let` statement, then invokes the operation (`run_op`, given the
operation's tag and the registry cell, which may itself access the
registry) and returns `true`.  `none` models a `RefCell` borrow panic. -/
def HighLevelHookCommand_call
    (run_op : Nat → CommandMapCell → Option CommandMapCell)
    (command_id : Nat) (c : CommandMapCell) : Option (Bool × CommandMapCell) := do
  let c1 ← cell_borrow c
  match lookupCommand c1.map command_id with
  | none => some (false, cell_release c1)
  | some cmd =>
      let c2 := cell_release c1
      let c3 ← run_op cmd.opId c2
      some (true, c3)

/-- `HighLevelToggleAction::call`: borrows the registry shared, looks
up the id; absent or not toggleable gives `NotRelevant`, otherwise the
`is_on` predicate decides `On`/`Off`. -/
def HighLevelToggleAction_call (command_id : Nat) (c : CommandMapCell) :
    Option ToggleActionResult := do
  let c1 ← cell_borrow c
  match lookupCommand c1.map command_id with
  | some cmd =>
      match cmd.kind with
      | .Toggleable is_on => some (if is_on () then .On else .Off)
      | .NotToggleable => some .NotRelevant
  | none => some .NotRelevant

/-- Looking a key up after filtering out every pair with that key gives
nothing. -/
theorem lookup_filter_ne_self (command_id : Nat) (l : CommandRegistry) :
    List.lookup command_id (l.filter (fun p => p.1 != command_id)) = none := by
  induction l with
  | nil => rfl
  | cons hd tl ih =>
      obtain ⟨k, v⟩ := hd
      by_cases h : k = command_id
      · simp [List.filter_cons, h, ih]
      · have hb : (((k, v) : Nat × Command).1 != command_id) = true := by simp [h]
        have hk : (command_id == k) = false := by simp [Ne.symm h]
        simp [List.filter_cons, hb, List.lookup, hk, ih]

/-- After `unregister_command`, the id is no longer in the registry. -/
theorem lookup_unregister_self (command_id : Nat) (m : CommandRegistry) :
    lookupCommand (unregister_command command_id m) command_id = none := by
  rw [unregister_command]
  split
  · exact lookup_filter_ne_self command_id m
  · rename_i h
    simp only [lookupCommand] at h ⊢
    cases hv : List.lookup command_id m with
    | none => rfl
    | some c => simp [hv] at h

/-- C4: registering a command and then unregistering it through the
returned `RegisteredAction` makes every later hook-command dispatch of
that id return `false` ("not handled") and every later toggle-state
query return `NotRelevant`, whatever operation the dispatcher would
run. -/
theorem unregistered_command_not_handled (m : CommandRegistry)
    (command_id gaccel : Nat) (cmd : Command)
    (run_op : Nat → CommandMapCell → Option CommandMapCell) :
    HighLevelHookCommand_call run_op
        ((register_action command_id cmd gaccel m).2).command_id
        ⟨((register_action command_id cmd gaccel m).2).unregister
            (register_action command_id cmd gaccel m).1, 0, false⟩
      = some (false,
          ⟨((register_action command_id cmd gaccel m).2).unregister
              (register_action command_id cmd gaccel m).1, 0, false⟩) ∧
    HighLevelToggleAction_call
        ((register_action command_id cmd gaccel m).2).command_id
        ⟨((register_action command_id cmd gaccel m).2).unregister
            (register_action command_id cmd gaccel m).1, 0, false⟩
      = some .NotRelevant := by
  have hid : ((register_action command_id cmd gaccel m).2).command_id = command_id := rfl
  have hnone :
      lookupCommand (((register_action command_id cmd gaccel m).2).unregister
          (register_action command_id cmd gaccel m).1) command_id = none := by
    rw [RegisteredAction.unregister, hid]
    exact lookup_unregister_self command_id _
  constructor
  · rw [HighLevelHookCommand_call]
    simp [cell_borrow, hid, hnone, cell_release]
  · rw [HighLevelToggleAction_call]
    simp [cell_borrow, hid, hnone]

/-- C5: hook-command dispatch clones the operation's shared handle and
releases the registry borrow before invoking it, so an operation that
itself calls `register_action` — or `unregister_command` — while being
dispatched completes without a `RefCell` panic: dispatch returns
`some (true, _)` (never `none`) and the operation's registry update
takes effect. -/
theorem dispatch_releases_registry_borrow_before_invoking
    (m : CommandRegistry) (command_id : Nat) (cmd : Command)
    (h : lookupCommand m command_id = some cmd)
    (nid uid gaccel : Nat) (ncmd : Command) :
    HighLevelHookCommand_call
        (fun _ c => (register_action_via_cell nid ncmd gaccel c).map (·.1))
        command_id ⟨m, 0, false⟩
      = some (true, ⟨(register_action nid ncmd gaccel m).1, 0, false⟩) ∧
    HighLevelHookCommand_call (fun _ c => unregister_command_via_cell uid c)
        command_id ⟨m, 0, false⟩
      = some (true, ⟨unregister_command uid m, 0, false⟩) := by
  constructor <;>
    simp [HighLevelHookCommand_call, cell_borrow, cell_release, h,
      register_action_via_cell, unregister_command_via_cell,
      cell_borrow_mut, cell_release_mut, register_action]

/-- A concrete registry with one not-toggleable command under id 1. -/
def registryW : CommandRegistry := [(1, ⟨10, .NotToggleable⟩)]

/-- Witness for C5: dispatching id 1 of `registryW` with an operation
that registers id 2 (resp. unregisters id 1) succeeds without panic. -/
theorem dispatch_releases_registry_borrow_before_invoking_witness :
    HighLevelHookCommand_call
        (fun _ c => (register_action_via_cell 2 ⟨11, .NotToggleable⟩ 6 c).map (·.1))
        1 ⟨registryW, 0, false⟩
      = some (true, ⟨(register_action 2 ⟨11, .NotToggleable⟩ 6 registryW).1, 0, false⟩) ∧
    HighLevelHookCommand_call (fun _ c => unregister_command_via_cell 1 c)
        1 ⟨registryW, 0, false⟩
      = some (true, ⟨unregister_command 1 registryW, 0, false⟩) :=
  dispatch_releases_registry_borrow_before_invoking registryW 1
    ⟨10, .NotToggleable⟩ rfl 2 1 6 ⟨11, .NotToggleable⟩

/-- C10: calling `register_action` with a command id the registry
already maps leaves the registry — in particular the existing command's
operation and toggle kind — completely unchanged (the newly supplied
operation is never stored), and still returns a `RegisteredAction`
carrying that id and the new gaccel handle. -/
theorem register_action_double_registration_keeps_existing
    (m : CommandRegistry) (command_id gaccel : Nat)
    (existing newCmd : Command)
    (h : lookupCommand m command_id = some existing) :
    (register_action command_id newCmd gaccel m).1 = m ∧
    lookupCommand (register_action command_id newCmd gaccel m).1 command_id
      = some existing ∧
    (register_action command_id newCmd gaccel m).2.command_id = command_id ∧
    (register_action command_id newCmd gaccel m).2.gaccel_handle = gaccel := by
  refine ⟨?_, ?_, rfl, rfl⟩ <;> simp [register_action, h]

/-- Witness for C10 on `registryW`, re-registering id 1 with a
different operation. -/
theorem register_action_double_registration_keeps_existing_witness :
    (register_action 1 ⟨11, .NotToggleable⟩ 6 registryW).1 = registryW ∧
    lookupCommand (register_action 1 ⟨11, .NotToggleable⟩ 6 registryW).1 1
      = some ⟨10, .NotToggleable⟩ ∧
    (register_action 1 ⟨11, .NotToggleable⟩ 6 registryW).2.command_id = 1 ∧
    (register_action 1 ⟨11, .NotToggleable⟩ 6 registryW).2.gaccel_handle = 6 :=
  register_action_double_registration_keeps_existing registryW 1 6
    ⟨10, .NotToggleable⟩ ⟨11, .NotToggleable⟩ rfl

/-! ## Audio hook: `HighOnAudioBuffer::call` -/

/-- The kind of a short MIDI message, as far as the audio hook cares:
`ShortMessageType::ActiveSensing` is filtered out, everything else is
forwarded. -/
inductive ShortMessageKind where
  | ActiveSensing
  | Other
  deriving DecidableEq

/-- `MidiEvent` from the source: a frame offset plus the (converted,
owned) short message, reduced to its kind. -/
structure MidiEventMsg where
  frame_offset : Nat
  kind : ShortMessageKind
  deriving DecidableEq

/-- The state visible to `HighOnAudioBuffer::call`: the audio-thread
task receiver, the trace of executed audio tasks, the subscriber count
of `midi_message_received`, the buffered events of each MIDI input
device (in device order), and the events pushed to the subject so
far. -/
structure RealTimeState where
  audio_queue : List AudioThreadTaskOp
  executed_audio : List Nat
  subscribed_size : Nat
  midi_inputs : List (List MidiEventMsg)
  forwarded : List MidiEventMsg
  deriving DecidableEq

/-- `HighOnAudioBuffer::call`: returns immediately in the post phase;
otherwise dequeues and executes at most one task
(`try_iter().take(1)`), then — only if the MIDI subject has
subscribers — reads every input device's buffered events and forwards
all of them except active-sensing messages. -/
def HighOnAudioBuffer_call (is_post : Bool) (st : RealTimeState) : RealTimeState :=
  if is_post then st
  else
    let st1 :=
      match st.audio_queue with
      | [] => st
      | t :: rest =>
          { st with audio_queue := rest,
                    executed_audio := st.executed_audio ++ [t.id] }
    if st1.subscribed_size = 0 then st1
    else
      { st1 with forwarded := st1.forwarded ++
          (st1.midi_inputs.flatten.filter (fun e => e.kind != .ActiveSensing)) }

/-- C6: in the post phase the audio hook does nothing at all (no task
dequeued or executed, no MIDI read or forwarded); in the pre phase it
dequeues and executes exactly the first queued audio-thread task when
the queue is non-empty and none when it is empty, however many tasks
are queued. -/
theorem audio_hook_post_noop_pre_one_task (st : RealTimeState) :
    HighOnAudioBuffer_call true st = st ∧
    (HighOnAudioBuffer_call false st).audio_queue = st.audio_queue.drop 1 ∧
    (HighOnAudioBuffer_call false st).executed_audio
      = st.executed_audio ++ (st.audio_queue.take 1).map AudioThreadTaskOp.id := by
  refine ⟨rfl, ?_, ?_⟩ <;>
    · rw [HighOnAudioBuffer_call]
      cases hq : st.audio_queue <;> dsimp <;> split <;> simp [hq]

/-! ## Main-thread drain cycle (control surface) -/

/-- Modelled from the spec: the per-tick main-thread task drain of
`HelperControlSurface::run` — the control surface's source file is not
under `src/` (only its construction in `activate` and the channel it
consumes are).  Per spec 4.4, "a task is due if it has no deadline or
its deadline has passed"; the claim's reading "current time ≥ deadline"
is used. -/
def task_is_due (now : Nat) (t : MainThreadTask) : Bool :=
  match t.desired_execution_time with
  | none => true
  | some deadline => decide (deadline ≤ now)

/-- Modelled from the spec: one drain cycle at time `now` executes the
due tasks in order and leaves the not-yet-due tasks queued, preserving
relative order (spec 4.4: partial, deadline-respecting FIFO).  Returns
(executed tasks, remaining queue). -/
def run_drain_cycle (now : Nat) (q : List MainThreadTask) :
    List MainThreadTask × List MainThreadTask :=
  (q.filter (task_is_due now), q.filter (fun t => !(task_is_due now t)))

/-- Modelled from the spec: consecutive drain cycles at the given
times, accumulating all executed tasks. -/
def run_drain_cycles : List Nat → List MainThreadTask →
    List MainThreadTask × List MainThreadTask
  | [], q => ([], q)
  | now :: rest, q =>
      let c := run_drain_cycle now q
      let r := run_drain_cycles rest c.2
      (c.1 ++ r.1, r.2)

/-- A task that is not due at any of the cycle times is never executed
by those cycles and stays queued. -/
theorem not_due_task_survives_cycles (t : MainThreadTask) (times : List Nat)
    (q : List MainThreadTask) (ht : t ∈ q)
    (h : ∀ x ∈ times, task_is_due x t = false) :
    t ∉ (run_drain_cycles times q).1 ∧ t ∈ (run_drain_cycles times q).2 := by
  induction times generalizing q with
  | nil => exact ⟨by simp [run_drain_cycles], by simpa [run_drain_cycles] using ht⟩
  | cons now rest ih =>
      have hnow : task_is_due now t = false := h now (by simp)
      have hrem : t ∈ (run_drain_cycle now q).2 := by
        simp [run_drain_cycle, List.mem_filter, ht, hnow]
      have hrest := ih (run_drain_cycle now q).2 hrem
        (fun x hx => h x (by simp [hx]))
      refine ⟨?_, ?_⟩
      · rw [run_drain_cycles]
        intro hmem
        rcases List.mem_append.1 hmem with hc | hr
        · have := (List.mem_filter.1 (by simpa [run_drain_cycle] using hc)).2
          rw [hnow] at this
          cases this
        · exact hrest.1 hr
      · rw [run_drain_cycles]
        exact hrest.2

/-- C7: `execute_in_main_thread(waiting_time, op)` enqueues a task whose
deadline is the submission time plus `waiting_time`; that task is
executed by no drain cycle whose time is earlier than the deadline
(remaining queued throughout), and is executed by the first drain cycle
whose time is at or past the deadline. -/
theorem deadline_task_executed_at_first_due_cycle
    (now0 waiting_time op : Nat) (ch : BoundedChannel MainThreadTask)
    (hcap : ch.queue.length < ch.capacity) (hdis : ch.disconnected = false)
    (times : List Nat) (hearly : ∀ x ∈ times, x < now0 + waiting_time)
    (now : Nat) (hlate : now0 + waiting_time ≤ now) :
    execute_in_main_thread now0 waiting_time op ch
      = .returned (.ok ())
          { ch with queue := ch.queue ++ [⟨op, some (now0 + waiting_time)⟩] } ∧
    (⟨op, some (now0 + waiting_time)⟩ : MainThreadTask)
      ∉ (run_drain_cycles times (ch.queue ++ [⟨op, some (now0 + waiting_time)⟩])).1 ∧
    (⟨op, some (now0 + waiting_time)⟩ : MainThreadTask)
      ∈ (run_drain_cycles times (ch.queue ++ [⟨op, some (now0 + waiting_time)⟩])).2 ∧
    (⟨op, some (now0 + waiting_time)⟩ : MainThreadTask)
      ∈ (run_drain_cycle now
          (run_drain_cycles times (ch.queue ++ [⟨op, some (now0 + waiting_time)⟩])).2).1 := by
  have hdue : ∀ x ∈ times,
      task_is_due x (⟨op, some (now0 + waiting_time)⟩ : MainThreadTask) = false := by
    intro x hx
    have := hearly x hx
    simp [task_is_due]
    omega
  have hsurv := not_due_task_survives_cycles
    ⟨op, some (now0 + waiting_time)⟩ times
    (ch.queue ++ [⟨op, some (now0 + waiting_time)⟩]) (by simp) hdue
  refine ⟨?_, hsurv.1, hsurv.2, ?_⟩
  · rw [execute_in_main_thread, channelSend, hdis]
    simp [hcap]
  · have : task_is_due now (⟨op, some (now0 + waiting_time)⟩ : MainThreadTask) = true := by
      simp [task_is_due]
      omega
    simp [run_drain_cycle, List.mem_filter, hsurv.2, this]

/-- An empty, connected main-thread channel with capacity 10. -/
def chW : BoundedChannel MainThreadTask :=
  { capacity := 10, queue := [], disconnected := false }

/-- Witness for C7: a task submitted at time 1 with waiting time 2
(deadline 3) is skipped by cycles at times 0 and 2 and executed by the
cycle at time 3. -/
theorem deadline_task_executed_at_first_due_cycle_witness :
    execute_in_main_thread 1 2 7 chW
      = .returned (.ok ()) { chW with queue := chW.queue ++ [⟨7, some (1 + 2)⟩] } ∧
    (⟨7, some (1 + 2)⟩ : MainThreadTask)
      ∉ (run_drain_cycles [0, 2] (chW.queue ++ [⟨7, some (1 + 2)⟩])).1 ∧
    (⟨7, some (1 + 2)⟩ : MainThreadTask)
      ∈ (run_drain_cycles [0, 2] (chW.queue ++ [⟨7, some (1 + 2)⟩])).2 ∧
    (⟨7, some (1 + 2)⟩ : MainThreadTask)
      ∈ (run_drain_cycle 3
          (run_drain_cycles [0, 2] (chW.queue ++ [⟨7, some (1 + 2)⟩])).2).1 :=
  deadline_task_executed_at_first_due_cycle 1 2 7 chW (by decide) rfl
    [0, 2] (by decide) 3 (by decide)

end ReaperRs
